import Mathlib

/-!
Verification of the Qarnot MCP tool gateway (`mcp_server.py`).

The server is a thin adapter: each tool retrieves remote objects through the
vendor SDK, reshapes a subset of their fields into JSON (rendered with
`json.dumps(..., indent=2)`) or a short plain-text message, and returns a
string.  We embed the remote objects as plain structures, the JSON payloads
as a mutual inductive `Json` type together with a faithful model of Python's
serializer, and each tool as a pure Lean function.  Remote retrieval
(`conn.retrieve_task` / `conn.retrieve_bucket`) is modelled by passing the
retrieved object directly; remote mutation (`task.abort()`) is modelled by
an invocation count in the result.  Numeric and timestamp renderings that
Python produces with `str(...)` / f-string formatting of floats and
datetimes are kept abstract as the already-rendered strings.
-/

mutual
/-- JSON values, covering exactly the shapes `mcp_server.py` builds:
`null`, strings, integers, arrays and (insertion-ordered) objects. -/
inductive Json where
  | null : Json
  | str : String → Json
  | int : Int → Json
  | arr : JsonList → Json
  | obj : JsonFields → Json
/-- The items of a JSON array, in order. -/
inductive JsonList where
  | nil : JsonList
  | cons : Json → JsonList → JsonList
/-- The key/value fields of a JSON object, in insertion order. -/
inductive JsonFields where
  | nil : JsonFields
  | cons : String → Json → JsonFields → JsonFields
end

/-- Build a JSON array from a Lean list of values. -/
def JsonList.ofList : List Json → JsonList
  | [] => JsonList.nil
  | x :: xs => JsonList.cons x (JsonList.ofList xs)

/-- Build JSON object fields from a Lean list of key/value pairs. -/
def JsonFields.ofList : List (String × Json) → JsonFields
  | [] => JsonFields.nil
  | (k, v) :: kvs => JsonFields.cons k v (JsonFields.ofList kvs)

/-- A JSON array literal, as the Python code writes `[...]`. -/
def Json.mkArr (xs : List Json) : Json := Json.arr (JsonList.ofList xs)

/-- A JSON object literal, as the Python code writes a dict literal. -/
def Json.mkObj (kvs : List (String × Json)) : Json :=
  Json.obj (JsonFields.ofList kvs)

/-- Lower-case hex digit, as CPython's `json` encoder emits in `\uXXXX`. -/
def hexDigit (n : Nat) : Char :=
  if n < 10 then Char.ofNat (48 + n) else Char.ofNat (87 + n)

/-- Four lower-case hex digits. -/
def hex4 (n : Nat) : String :=
  String.mk [hexDigit (n / 4096 % 16), hexDigit (n / 256 % 16),
             hexDigit (n / 16 % 16), hexDigit (n % 16)]

/-- Escape one character the way CPython's `json.dumps` (default
`ensure_ascii=True`) does inside a string literal. -/
def jsonEscapeChar (c : Char) : String :=
  if c = '"' then "\\\""
  else if c = '\\' then "\\\\"
  else if c = '\n' then "\\n"
  else if c = '\r' then "\\r"
  else if c = '\t' then "\\t"
  else if c.toNat = 8 then "\\b"
  else if c.toNat = 12 then "\\f"
  else if c.toNat < 32 then "\\u" ++ hex4 c.toNat
  else if c.toNat < 127 then String.singleton c
  else if c.toNat ≤ 65535 then "\\u" ++ hex4 c.toNat
  else
    "\\u" ++ hex4 (55296 + (c.toNat - 65536) / 1024)
      ++ "\\u" ++ hex4 (56320 + (c.toNat - 65536) % 1024)

/-- A JSON string literal: quotes around the escaped characters. -/
def jsonQuote (s : String) : String :=
  "\"" ++ String.join (s.toList.map jsonEscapeChar) ++ "\""

/-- Indentation: `n` spaces, for the `indent=2` layout. -/
def spaces (n : Nat) : String :=
  String.mk (List.replicate n ' ')

mutual
/-- Serializer modelling `json.dumps(v, indent=2)` for a value whose own
indent level is `d`: nested items are indented by `d + 2`, separated by
`,\n`, keys are followed by `: `, and empty containers render inline. -/
def Json.dumpAt : Nat → Json → String
  | _, Json.null => "null"
  | _, Json.int i => toString i
  | _, Json.str s => jsonQuote s
  | _, Json.arr JsonList.nil => "[]"
  | d, Json.arr xs =>
      "[\n" ++ JsonList.dumpItems (d + 2) xs ++ "\n" ++ spaces d ++ "]"
  | _, Json.obj JsonFields.nil => "\x7b\x7d"
  | d, Json.obj kvs =>
      "\x7b\n" ++ JsonFields.dumpItems (d + 2) kvs ++ "\n" ++ spaces d ++ "\x7d"
/-- Array items at indent `d`, joined by `,\n`. -/
def JsonList.dumpItems : Nat → JsonList → String
  | _, JsonList.nil => ""
  | d, JsonList.cons x JsonList.nil => spaces d ++ Json.dumpAt d x
  | d, JsonList.cons x xs =>
      spaces d ++ Json.dumpAt d x ++ ",\n" ++ JsonList.dumpItems d xs
/-- Object fields at indent `d`, joined by `,\n`. -/
def JsonFields.dumpItems : Nat → JsonFields → String
  | _, JsonFields.nil => ""
  | d, JsonFields.cons k v JsonFields.nil =>
      spaces d ++ jsonQuote k ++ ": " ++ Json.dumpAt d v
  | d, JsonFields.cons k v kvs =>
      spaces d ++ jsonQuote k ++ ": " ++ Json.dumpAt d v
        ++ ",\n" ++ JsonFields.dumpItems d kvs
end

/-- Model of `json.dumps(v, indent=2)`. -/
def Json.dump (j : Json) : String := Json.dumpAt 0 j

/-- Look a key up among object fields (Python dict literals in the source
have unique keys, so the first match is the only one). -/
def JsonFields.get : JsonFields → String → Option Json
  | JsonFields.nil, _ => none
  | JsonFields.cons k v rest, key =>
      if k = key then some v else JsonFields.get rest key

/-- Look a key up in a JSON object. -/
def Json.getField : Json → String → Option Json
  | Json.obj fields, key => fields.get key
  | _, _ => none

example : Json.dump (Json.mkArr []) = "[]" := by rfl
example : Json.dump (Json.mkArr [Json.str "a"]) = "[\n  \"a\"\n]" := by rfl
example :
    Json.dump (Json.mkArr [Json.mkObj [("name", Json.str "b")]])
      = "[\n  \x7b\n    \"name\": \"b\"\n  \x7d\n]" := by rfl
example :
    Json.dump (Json.mkObj [("a", Json.int 3), ("b", Json.null)])
      = "\x7b\n  \"a\": 3,\n  \"b\": null\n\x7d" := by rfl

/-! ## Remote data model

Structures for the slices of the SDK objects that `mcp_server.py` reads.
Attributes that Python probes with `getattr(..., default)` or guards with
truthiness checks are `Option`s (with `getattr(..., [])` defaults embedded
as plain lists, an absent attribute being the empty list). -/

/-- An active port forward of a running instance (`fwd` in the source):
`application_port`, `forwarder_host`, `forwarder_port`. -/
structure Forward where
  application_port : Int
  forwarder_host : String
  forwarder_port : Int

/-- One entry of `per_running_instance_info`: an `instance_id` and the
`active_forwards` list (missing attribute ≙ empty list, matching
`getattr(instance, 'active_forwards', [])`). -/
structure InstanceInfo where
  instance_id : Int
  active_forwards : List Forward

/-- The `running_instances_info` object; `per_running_instance_info`
defaults to the empty list (`getattr(running_info,
'per_running_instance_info', [])`). -/
structure RunningInstancesInfo where
  per_running_instance_info : List InstanceInfo

/-- The `task.status` object; `running_instances_info` is `none` when the
attribute is missing or `None` (`getattr(task.status,
'running_instances_info', None)`). -/
structure TaskStatus where
  running_instances_info : Option RunningInstancesInfo

/-- The slice of a Qarnot task the server reads.  `progress`,
`execution_time`, `wall_time` and the dates are kept as their Python
string renderings; `end_date` is `none` when the task has no end date
(Python `None`, the falsy case of `task.end_date`); `status` is `none`
when the attribute is missing or `None` (the guard `hasattr(task,
'status') and task.status`); `stdout_all` / `stderr_all` model
`task.stdout()` / `task.stderr()` and `stdout_inst` / `stderr_inst` the
per-instance reads `task.stdout(i)` / `task.stderr(i)`, each `none` or
`some ""` when nothing was captured. -/
structure QTask where
  uuid : String
  name : String
  state : String
  progress : String
  instancecount : Int
  running_instance_count : Int
  running_core_count : Int
  execution_time : String
  wall_time : String
  creation_date : String
  end_date : Option String
  status : Option TaskStatus
  stdout_all : Option String
  stdout_inst : Int → Option String
  stderr_all : Option String
  stderr_inst : Int → Option String

/-- A file in a storage bucket: its `key` and its byte content. -/
structure BucketFile where
  key : String
  content : List Nat

/-- A storage bucket: its identifier (`bucket.uuid`) and the files that
`bucket.list_files()` enumerates. -/
structure Bucket where
  uuid : String
  files : List BucketFile

/-- A local filesystem, mapping paths to byte contents. -/
abbrev LocalFS := String → Option (List Nat)

/-- The SDK connection object; the server only ever passes
`client_token`. -/
structure Connection where
  client_token : String

/-! ## Startup and the tool implementations -/

/-- Startup check of `mcp_server.py` lines 11-13: `os.getenv` yields
`none` when the variable is absent, and `if not QARNOT_TOKEN` raises
`ValueError` for `None` and for the empty (falsy) string. -/
def startupToken : Option String → Except String String
  | none => Except.error "QARNOT_TOKEN environment variable is required"
  | some s =>
      if s = "" then
        Except.error "QARNOT_TOKEN environment variable is required"
      else Except.ok s

/-- Tool helper `get_connection`: builds a fresh connection from the startup token. -/
def get_connection (token : String) : Connection :=
  { client_token := token }

/-- One summary object of `list_tasks` (source lines 31-40). -/
def taskSummary (task : QTask) : Json :=
  Json.mkObj [
    ("uuid", Json.str task.uuid),
    ("name", Json.str task.name),
    ("state", Json.str task.state),
    ("progress", Json.str (task.progress ++ "%")),
    ("instance_count", Json.int task.instancecount),
    ("running_instances", Json.int task.running_instance_count),
    ("creation_date", Json.str task.creation_date),
    ("end_date", Json.str (match task.end_date with
      | some d => d
      | none => "N/A"))]

/-- Tool `list_tasks`: serialize the summaries of all tasks returned by
`conn.tasks()`. -/
def list_tasks (tasks : List QTask) : String :=
  Json.dump (Json.mkArr (tasks.map taskSummary))

/-- One forward descriptor appended to `ssh_info` (source lines 64-71). -/
def forwardJson (instance_id : Int) (fwd : Forward) : Json :=
  Json.mkObj [
    ("instance_id", Json.int instance_id),
    ("app_port", Json.int fwd.application_port),
    ("host", Json.str fwd.forwarder_host),
    ("port", Json.int fwd.forwarder_port),
    ("ssh_command",
      if fwd.application_port = 22 then
        Json.str ("ssh -p " ++ toString fwd.forwarder_port ++ " user@"
          ++ fwd.forwarder_host)
      else Json.null)]

/-- The `ssh_info` list built by the nested loops of `get_task_status`
(source lines 58-71), in append order. -/
def sshInfoOf (task : QTask) : List Json :=
  match task.status with
  | none => []
  | some st =>
      match st.running_instances_info with
      | none => []
      | some ri =>
          ri.per_running_instance_info.flatMap
            (fun inst => inst.active_forwards.map
              (forwardJson inst.instance_id))

/-- The `result` dict of `get_task_status` (source lines 73-86);
`task.update(flushcache=True)` is modelled by taking the refreshed task as
input. -/
def get_task_status_json (task : QTask) : Json :=
  let ssh_info := sshInfoOf task
  Json.mkObj [
    ("uuid", Json.str task.uuid),
    ("name", Json.str task.name),
    ("state", Json.str task.state),
    ("progress", Json.str (task.progress ++ "%")),
    ("instance_count", Json.int task.instancecount),
    ("running_instances", Json.int task.running_instance_count),
    ("running_cores", Json.int task.running_core_count),
    ("execution_time", Json.str task.execution_time),
    ("wall_time", Json.str task.wall_time),
    ("creation_date", Json.str task.creation_date),
    ("end_date", Json.str (match task.end_date with
      | some d => d
      | none => "N/A")),
    ("ssh_connections",
      if ssh_info.isEmpty then Json.str "No active SSH forwards"
      else Json.mkArr ssh_info)]

/-- Tool `get_task_status`: the serialized status object. -/
def get_task_status (task : QTask) : String :=
  Json.dump (get_task_status_json task)

/-- Python's `s or dflt` for the optional captured text: `None` and the
empty string are falsy. -/
def pyOrElse : Option String → String → String
  | none, dflt => dflt
  | some s, dflt => if s = "" then dflt else s

/-- The stdout capture `get_task_stdout` reads:
`task.stdout(instance_id) if instance_id is not None else task.stdout()`.
The dispatch is on `is not None`, so `some 0` is a per-instance read. -/
def stdoutCapture (task : QTask) : Option Int → Option String
  | some i => task.stdout_inst i
  | none => task.stdout_all

/-- The stderr capture `get_task_stderr` reads, with the same `is not
None` dispatch. -/
def stderrCapture (task : QTask) : Option Int → Option String
  | some i => task.stderr_inst i
  | none => task.stderr_all

/-- Tool `get_task_stdout`: the capture, with falsy captures replaced by
`"(no output)"` (`return stdout or "(no output)"`). -/
def get_task_stdout (task : QTask) (instance_id : Option Int) : String :=
  pyOrElse (stdoutCapture task instance_id) "(no output)"

/-- Tool `get_task_stderr`: the capture, with falsy captures replaced by
`"(no error output)"` (`return stderr or "(no error output)"`). -/
def get_task_stderr (task : QTask) (instance_id : Option Int) : String :=
  pyOrElse (stderrCapture task instance_id) "(no error output)"

/-- The terminal states checked by `cancel_task` (source line 132). -/
def terminalStates : List String := ["Cancelled", "Success", "Failure"]

/-- Tool `cancel_task`: the returned message together with the number of times
`task.abort()` was invoked. -/
def cancel_task (uuid : String) (task : QTask) : String × Nat :=
  if task.state ∈ terminalStates then
    ("Task " ++ uuid ++ " is already in state '" ++ task.state
      ++ "' and cannot be cancelled.", 0)
  else
    ("Task " ++ uuid ++ " has been cancelled.", 1)

/-- Tool `list_buckets`: one `{"name": bucket.uuid}` object per bucket, or the
placeholder when `result` is empty (falsy). -/
def list_buckets (buckets : List Bucket) : String :=
  let result := buckets.map (fun b => Json.mkObj [("name", Json.str b.uuid)])
  if result.isEmpty then "No buckets found."
  else Json.dump (Json.mkArr result)

/-- Tool `list_bucket_files`: the keys of the bucket's files, or the
placeholder when the list is empty (falsy). -/
def list_bucket_files (bucket : Bucket) : String :=
  let files := bucket.files.map (fun f => f.key)
  if files.isEmpty then "No files in bucket."
  else Json.dump (Json.mkArr (files.map Json.str))

/-- Model of the external SDK operation `bucket.get_file(remote, local)`:
when the bucket holds a file with key `remote_path` its bytes are written
at `local_path`, otherwise the SDK raises, which we model as an `error`
value that the wrapper can only propagate. -/
def Bucket.get_file (bucket : Bucket) (remote_path local_path : String)
    (fs : LocalFS) : Except String LocalFS :=
  match bucket.files.find? (fun f => f.key == remote_path) with
  | some f => Except.ok (fun p => if p = local_path then some f.content else fs p)
  | none => Except.error ("File not found in bucket: " ++ remote_path)

/-- Tool `download_result`: call `bucket.get_file` and, on success, return the
confirmation string; an SDK error propagates unchanged (there is no
handler in the source). -/
def download_result (bucket : Bucket)
    (bucket_name remote_path local_path : String) (fs : LocalFS) :
    Except String (LocalFS × String) :=
  match bucket.get_file remote_path local_path fs with
  | Except.error e => Except.error e
  | Except.ok fs2 =>
      Except.ok (fs2, "Downloaded '" ++ remote_path ++ "' from '"
        ++ bucket_name ++ "' to '" ++ local_path ++ "'")

/-! ## Derived predicates and helper lemmas -/

/-- The condition "no running instance reports an active forward": the status is missing
or `None`, the `running_instances_info` attribute is missing or `None`, or
every listed running instance has an empty `active_forwards` list. -/
def noActiveForwards (task : QTask) : Bool :=
  match task.status with
  | none => true
  | some st =>
      match st.running_instances_info with
      | none => true
      | some ri =>
          ri.per_running_instance_info.all
            (fun inst => inst.active_forwards.isEmpty)

/-- The hypothesis of claim C10: the status object or one of the nested
forward attributes is absent, `None`, or empty. -/
def statusAttrsMissing (task : QTask) : Prop :=
  task.status = none ∨
  ∃ st, task.status = some st ∧
    (st.running_instances_info = none ∨
     ∃ ri, st.running_instances_info = some ri ∧
       (ri.per_running_instance_info = [] ∨
        ∀ inst ∈ ri.per_running_instance_info, inst.active_forwards = []))

theorem sshInfoOf_eq_nil_iff (task : QTask) :
    sshInfoOf task = [] ↔ noActiveForwards task = true := by
  cases hs : task.status with
  | none => simp [sshInfoOf, noActiveForwards, hs]
  | some st =>
      cases hr : st.running_instances_info with
      | none => simp [sshInfoOf, noActiveForwards, hs, hr]
      | some ri =>
          simp [sshInfoOf, noActiveForwards, hs, hr,
            List.flatMap_eq_nil_iff, List.all_eq_true,
            List.map_eq_nil_iff, List.isEmpty_iff]

theorem mem_sshInfoOf {task : QTask} {j : Json} (h : j ∈ sshInfoOf task) :
    ∃ iid fwd, j = forwardJson iid fwd := by
  cases hs : task.status with
  | none => simp [sshInfoOf, hs] at h
  | some st =>
      cases hr : st.running_instances_info with
      | none => simp [sshInfoOf, hs, hr] at h
      | some ri =>
          simp only [sshInfoOf, hs, hr] at h
          rcases List.mem_flatMap.mp h with ⟨inst, _, hj⟩
          rcases List.mem_map.mp hj with ⟨fwd, _, hj2⟩
          exact ⟨inst.instance_id, fwd, hj2.symm⟩

theorem forwardJson_ssh_command (iid : Int) (fwd : Forward) :
    (forwardJson iid fwd).getField "ssh_command"
      = some (if fwd.application_port = 22 then
          Json.str ("ssh -p " ++ toString fwd.forwarder_port ++ " user@"
            ++ fwd.forwarder_host)
        else Json.null) := by
  rfl

theorem forwardJson_app_port (iid : Int) (fwd : Forward) :
    (forwardJson iid fwd).getField "app_port"
      = some (Json.int fwd.application_port) := by
  rfl

theorem get_task_status_json_ssh (task : QTask) :
    (get_task_status_json task).getField "ssh_connections"
      = some (if (sshInfoOf task).isEmpty then
          Json.str "No active SSH forwards"
        else Json.mkArr (sshInfoOf task)) := by
  rfl

theorem taskSummary_end_date (task : QTask) :
    (taskSummary task).getField "end_date"
      = some (Json.str (match task.end_date with
          | some d => d
          | none => "N/A")) := by
  rfl

/-! ## Sample data for witnesses -/

/-- A running task used as the base of concrete witnesses. -/
def sampleTask : QTask :=
  { uuid := "task-1", name := "demo", state := "FullyExecuting",
    progress := "50.0", instancecount := 2, running_instance_count := 1,
    running_core_count := 4, execution_time := "0:10:00",
    wall_time := "0:12:00", creation_date := "2024-01-01 00:00:00",
    end_date := none, status := none,
    stdout_all := some "hello", stdout_inst := fun _ => none,
    stderr_all := none, stderr_inst := fun _ => none }

/-! ## Claims -/

/-- Claim C1: for every task whose state is one of `Cancelled`, `Success`
or `Failure`, `cancel_task` does not invoke the remote abort operation
(zero abort calls) and returns a message containing that state string
verbatim. -/
theorem cancel_task_terminal_no_abort (uuid : String) (task : QTask)
    (h : task.state ∈ terminalStates) :
    (cancel_task uuid task).2 = 0 ∧
      ∃ pre post, (cancel_task uuid task).1 = pre ++ task.state ++ post := by
  rw [cancel_task, if_pos h]
  exact ⟨rfl, "Task " ++ uuid ++ " is already in state '",
    "' and cannot be cancelled.", rfl⟩

/-- Witness for C1: a concrete task in state `Cancelled`. -/
theorem cancel_task_terminal_no_abort_witness :
    (cancel_task "task-1" { sampleTask with state := "Cancelled" }).2 = 0 ∧
      ∃ pre post,
        (cancel_task "task-1" { sampleTask with state := "Cancelled" }).1
          = pre ++ ({ sampleTask with state := "Cancelled" } : QTask).state
              ++ post :=
  cancel_task_terminal_no_abort "task-1"
    { sampleTask with state := "Cancelled" } (by decide)

/-- Claim C3: for every task whose state is not terminal, `cancel_task`
invokes `task.abort()` exactly once and returns a confirmation string
containing the task uuid. -/
theorem cancel_task_active_aborts (uuid : String) (task : QTask)
    (h : task.state ∉ terminalStates) :
    (cancel_task uuid task).2 = 1 ∧
      ∃ pre post, (cancel_task uuid task).1 = pre ++ uuid ++ post := by
  rw [cancel_task, if_neg h]
  exact ⟨rfl, "Task ", " has been cancelled.", rfl⟩

/-- Witness for C3: a concrete task in the non-terminal state
`FullyExecuting`. -/
theorem cancel_task_active_aborts_witness :
    (cancel_task "task-1" sampleTask).2 = 1 ∧
      ∃ pre post, (cancel_task "task-1" sampleTask).1
        = pre ++ "task-1" ++ post :=
  cancel_task_active_aborts "task-1" sampleTask (by decide)

/-- Claim C8: a missing or empty `QARNOT_TOKEN` fails startup with the
descriptive `ValueError` message before any tool can run (no connection is
ever built), and a present credential makes startup succeed, every
subsequent `get_connection` being built from exactly that credential. -/
theorem startup_token_check (env : Option String) :
    ((env = none ∨ env = some "") →
      startupToken env
        = Except.error "QARNOT_TOKEN environment variable is required") ∧
    ∀ s, env = some s → s ≠ "" →
      startupToken env = Except.ok s ∧
        (get_connection s).client_token = s := by
  constructor
  · rintro (rfl | rfl) <;> rfl
  · rintro s rfl hs
    exact ⟨by simp [startupToken, hs], rfl⟩

/-- Witness for C8: the absent, empty and present-credential cases at
concrete values. -/
theorem startup_token_check_witness :
    startupToken none
        = Except.error "QARNOT_TOKEN environment variable is required" ∧
      startupToken (some "")
        = Except.error "QARNOT_TOKEN environment variable is required" ∧
      (startupToken (some "secret") = Except.ok "secret" ∧
        (get_connection "secret").client_token = "secret") :=
  ⟨(startup_token_check none).1 (Or.inl rfl),
   (startup_token_check (some "")).1 (Or.inr rfl),
   (startup_token_check (some "secret")).2 "secret" rfl (by decide)⟩

/-- Claim C9: `instance_id = 0` is dispatched as a given instance (the
per-instance capture is read, for stdout and stderr alike), because the
source tests `instance_id is not None`, not truthiness; the whole-task
capture is irrelevant to the result. -/
theorem instance_id_zero_is_given (task : QTask) (alt alt2 : Option String) :
    get_task_stdout task (some 0)
        = pyOrElse (task.stdout_inst 0) "(no output)" ∧
      get_task_stderr task (some 0)
        = pyOrElse (task.stderr_inst 0) "(no error output)" ∧
      get_task_stdout { task with stdout_all := alt } (some 0)
        = get_task_stdout task (some 0) ∧
      get_task_stderr { task with stderr_all := alt2 } (some 0)
        = get_task_stderr task (some 0) :=
  ⟨rfl, rfl, rfl, rfl⟩

/-- Claim C6 as stated is refuted: its "exactly when" direction fails for
a task whose captured stdout is literally the placeholder text.  Here the
capture is present and non-empty, yet the returned string equals
`"(no output)"`. -/
theorem stdout_placeholder_counterexample :
    get_task_stdout { sampleTask with stdout_all := some "(no output)" }
        none = "(no output)" ∧
      stdoutCapture { sampleTask with stdout_all := some "(no output)" }
        none ≠ none ∧
      stdoutCapture { sampleTask with stdout_all := some "(no output)" }
        none ≠ some "" := by
  exact ⟨rfl, by decide, by decide⟩

/-- Claim C6 (amended): `get_task_stdout` / `get_task_stderr` return
`"(no output)"` / `"(no error output)"` whenever the underlying capture is
absent or empty, and otherwise return the captured text unmodified (which
coincides with the placeholder only when the captured text is itself the
placeholder); passing an instance id scopes the read to that instance's
capture. -/
theorem stdout_stderr_capture_behaviour (task : QTask) (oi : Option Int) :
    ((stdoutCapture task oi = none ∨ stdoutCapture task oi = some "") →
        get_task_stdout task oi = "(no output)") ∧
    (∀ s, stdoutCapture task oi = some s → s ≠ "" →
        get_task_stdout task oi = s) ∧
    ((stderrCapture task oi = none ∨ stderrCapture task oi = some "") →
        get_task_stderr task oi = "(no error output)") ∧
    (∀ s, stderrCapture task oi = some s → s ≠ "" →
        get_task_stderr task oi = s) ∧
    ∀ i, oi = some i →
      stdoutCapture task oi = task.stdout_inst i ∧
        stderrCapture task oi = task.stderr_inst i := by
  refine ⟨?_, ?_, ?_, ?_, ?_⟩
  · rintro (h | h) <;> simp [get_task_stdout, h, pyOrElse]
  · intro s h hs; simp [get_task_stdout, h, pyOrElse, hs]
  · rintro (h | h) <;> simp [get_task_stderr, h, pyOrElse]
  · intro s h hs; simp [get_task_stderr, h, pyOrElse, hs]
  · rintro i rfl; exact ⟨rfl, rfl⟩

/-- Witness for the amended C6: empty, absent, non-empty and per-instance
captures at concrete tasks. -/
theorem stdout_stderr_capture_behaviour_witness :
    get_task_stdout { sampleTask with stdout_all := none } none
        = "(no output)" ∧
      get_task_stdout sampleTask none = "hello" ∧
      get_task_stderr { sampleTask with stderr_all := some "" } none
        = "(no error output)" ∧
      get_task_stderr
        { sampleTask with stderr_inst := fun _ => some "warn" } (some 3)
        = "warn" :=
  ⟨(stdout_stderr_capture_behaviour
      { sampleTask with stdout_all := none } none).1 (Or.inl rfl),
   (stdout_stderr_capture_behaviour sampleTask none).2.1 "hello" rfl
     (by decide),
   (stdout_stderr_capture_behaviour
      { sampleTask with stderr_all := some "" } none).2.2.1 (Or.inr rfl),
   (stdout_stderr_capture_behaviour
      { sampleTask with stderr_inst := fun _ => some "warn" }
      (some 3)).2.2.2.1 "warn" rfl (by decide)⟩

/-- Claim C2 as stated is refuted for `list_buckets`: the elements of the
returned JSON array are single-field objects, not the bare bucket
identifiers, so for one bucket `"b1"` the output differs from the
serialization of `["b1"]`. -/
theorem list_buckets_counterexample :
    list_buckets [{ uuid := "b1", files := [] }]
        ≠ Json.dump (Json.mkArr [Json.str "b1"]) ∧
      list_buckets [{ uuid := "b1", files := [] }]
        = Json.dump (Json.mkArr [Json.mkObj [("name", Json.str "b1")]]) := by
  exact ⟨by decide, rfl⟩

/-- Claim C2 (amended): `list_buckets` returns the literal
`"No buckets found."` for zero buckets and otherwise a JSON array with one
single-field object `{"name": identifier}` per bucket; `list_bucket_files`
returns the literal `"No files in bucket."` for an empty bucket and
otherwise a JSON array of the file keys, one per file. -/
theorem list_buckets_and_files (buckets : List Bucket) (bucket : Bucket) :
    (buckets = [] → list_buckets buckets = "No buckets found.") ∧
    (buckets ≠ [] →
      list_buckets buckets
        = Json.dump (Json.mkArr (buckets.map
            (fun b => Json.mkObj [("name", Json.str b.uuid)]))) ∧
      (buckets.map (fun b => Json.mkObj [("name", Json.str b.uuid)])).length
        = buckets.length) ∧
    (bucket.files = [] → list_bucket_files bucket = "No files in bucket.") ∧
    (bucket.files ≠ [] →
      list_bucket_files bucket
        = Json.dump (Json.mkArr (bucket.files.map
            (fun f => Json.str f.key))) ∧
      (bucket.files.map (fun f => Json.str f.key)).length
        = bucket.files.length) := by
  refine ⟨?_, ?_, ?_, ?_⟩
  · intro h; simp [list_buckets, h]
  · intro h
    refine ⟨?_, by simp⟩
    simp [list_buckets, List.isEmpty_iff, List.map_eq_nil_iff, h]
  · intro h; simp [list_bucket_files, h]
  · intro h
    refine ⟨?_, by simp⟩
    simp [list_bucket_files, List.isEmpty_iff, List.map_eq_nil_iff, h,
      List.map_map, Function.comp_def]

/-- Witness for the amended C2: zero and one bucket, empty and non-empty
bucket contents, at concrete values. -/
theorem list_buckets_and_files_witness :
    list_buckets [] = "No buckets found." ∧
      list_buckets [{ uuid := "b1", files := [] }]
        = Json.dump (Json.mkArr
            [Json.mkObj [("name", Json.str "b1")]]) ∧
      list_bucket_files { uuid := "store", files := [] }
        = "No files in bucket." ∧
      list_bucket_files
          { uuid := "store", files := [{ key := "out.txt", content := [] }] }
        = Json.dump (Json.mkArr [Json.str "out.txt"]) := by
  refine ⟨(list_buckets_and_files [] { uuid := "store", files := [] }).1 rfl,
    ?_,
    (list_buckets_and_files [] { uuid := "store", files := [] }).2.2.1 rfl,
    ?_⟩
  · exact ((list_buckets_and_files [{ uuid := "b1", files := [] }]
      { uuid := "store", files := [] }).2.1 (List.cons_ne_nil _ _)).1
  · exact ((list_buckets_and_files []
      { uuid := "store",
        files := [{ key := "out.txt", content := [] }] }).2.2.2
      (List.cons_ne_nil _ _)).1

/-- Claim C5: `list_tasks` over zero tasks returns `"[]"`; over `N` tasks
it serializes an array of exactly `N` objects, each carrying the eight
documented fields, with `end_date` exactly `"N/A"` when the task has no
end date. -/
theorem list_tasks_shape (tasks : List QTask) :
    list_tasks [] = "[]" ∧
    list_tasks tasks = Json.dump (Json.mkArr (tasks.map taskSummary)) ∧
    (tasks.map taskSummary).length = tasks.length ∧
    ∀ task ∈ tasks,
      (∀ k ∈ ["uuid", "name", "state", "progress", "instance_count",
              "running_instances", "creation_date", "end_date"],
        ∃ v, (taskSummary task).getField k = some v) ∧
      (task.end_date = none →
        (taskSummary task).getField "end_date"
          = some (Json.str "N/A")) := by
  refine ⟨rfl, rfl, by simp, ?_⟩
  intro task _
  constructor
  · intro k hk
    simp only [List.mem_cons, List.not_mem_nil, or_false] at hk
    rcases hk with rfl | rfl | rfl | rfl | rfl | rfl | rfl | rfl
    all_goals exact ⟨_, rfl⟩
  · intro h
    rw [taskSummary_end_date, h]

/-- Witness for C5: the empty list, and a one-task list whose task has no
end date. -/
theorem list_tasks_shape_witness :
    list_tasks [] = "[]" ∧
      (∃ v, (taskSummary sampleTask).getField "instance_count" = some v) ∧
      (taskSummary sampleTask).getField "end_date"
        = some (Json.str "N/A") :=
  ⟨(list_tasks_shape []).1,
   ((list_tasks_shape [sampleTask]).2.2.2 sampleTask (by simp)).1
     "instance_count" (by simp),
   ((list_tasks_shape [sampleTask]).2.2.2 sampleTask (by simp)).2 rfl⟩

/-- Claim C4: the `ssh_connections` field of `get_task_status` is the
literal string `"No active SSH forwards"` exactly when no running instance
reports an active forward, and otherwise is a non-empty list of
per-instance forward descriptors whose `ssh_command` field is non-null
exactly for forwards with application port 22. -/
theorem get_task_status_ssh_field (task : QTask) :
    ((get_task_status_json task).getField "ssh_connections"
        = some (Json.str "No active SSH forwards")
      ↔ noActiveForwards task = true) ∧
    (noActiveForwards task = false →
      ∃ l : List Json,
        (get_task_status_json task).getField "ssh_connections"
          = some (Json.mkArr l) ∧ l ≠ [] ∧
        ∀ j ∈ l, ∃ v, j.getField "ssh_command" = some v ∧
          (v ≠ Json.null ↔ j.getField "app_port"
            = some (Json.int 22))) := by
  have hssh := get_task_status_json_ssh task
  constructor
  · rw [hssh]
    cases he : (sshInfoOf task).isEmpty with
    | true =>
        have h1 : sshInfoOf task = [] := List.isEmpty_iff.mp he
        simp [(sshInfoOf_eq_nil_iff task).mp h1]
    | false =>
        have hne : sshInfoOf task ≠ [] := List.isEmpty_eq_false.mp he
        have hna : noActiveForwards task = false := by
          cases hv : noActiveForwards task with
          | false => rfl
          | true => exact absurd ((sshInfoOf_eq_nil_iff task).mpr hv) hne
        rw [hna]
        simp only [Bool.false_eq_true, iff_false, if_false]
        intro hEq
        have h2 := Option.some.inj hEq
        exact Json.noConfusion h2
  · intro hna
    have hne : sshInfoOf task ≠ [] := by
      intro hnil
      rw [(sshInfoOf_eq_nil_iff task).mp hnil] at hna
      cases hna
    have he : (sshInfoOf task).isEmpty = false :=
      List.isEmpty_eq_false.mpr hne
    refine ⟨sshInfoOf task, ?_, hne, ?_⟩
    · rw [hssh, he]; simp
    · intro j hj
      obtain ⟨iid, fwd, rfl⟩ := mem_sshInfoOf hj
      rw [forwardJson_ssh_command, forwardJson_app_port]
      refine ⟨_, rfl, ?_⟩
      by_cases hp : fwd.application_port = 22
      · rw [if_pos hp]
        exact ⟨fun _ => by rw [hp], fun _ hEq => Json.noConfusion hEq⟩
      · rw [if_neg hp]
        exact ⟨fun hnn => absurd rfl hnn,
          fun hEq => absurd (Json.int.inj (Option.some.inj hEq)) hp⟩

/-- An SSH (application port 22) forward. -/
def sshForward : Forward :=
  { application_port := 22, forwarder_host := "fwd.qarnot.com",
    forwarder_port := 2222 }

/-- An HTTP (application port 80) forward. -/
def httpForward : Forward :=
  { application_port := 80, forwarder_host := "fwd.qarnot.com",
    forwarder_port := 8080 }

/-- A task with one running instance exposing the SSH and HTTP
forwards. -/
def forwardedTask : QTask :=
  { sampleTask with
    status := some ⟨some ⟨[⟨0, [sshForward, httpForward]⟩]⟩⟩ }

/-- Witness for C4: the no-forward case at `sampleTask` and the forward
case at `forwardedTask`. -/
theorem get_task_status_ssh_field_witness :
    ((get_task_status_json sampleTask).getField "ssh_connections"
        = some (Json.str "No active SSH forwards")
      ↔ noActiveForwards sampleTask = true) ∧
    ∃ l : List Json,
      (get_task_status_json forwardedTask).getField "ssh_connections"
        = some (Json.mkArr l) ∧ l ≠ [] ∧
      ∀ j ∈ l, ∃ v, j.getField "ssh_command" = some v ∧
        (v ≠ Json.null ↔ j.getField "app_port"
          = some (Json.int 22)) :=
  ⟨(get_task_status_ssh_field sampleTask).1,
   (get_task_status_ssh_field forwardedTask).2 (by decide)⟩

/-- Claim C10: when the task's status object, or any of the nested
`running_instances_info` / `per_running_instance_info` /
`active_forwards` attributes, is absent, `None` or empty,
`get_task_status` still succeeds and returns the full status object, with
`ssh_connections` reporting `"No active SSH forwards"` and every other
field still present. -/
theorem get_task_status_missing_attrs_safe (task : QTask)
    (h : statusAttrsMissing task) :
    get_task_status_json task = Json.mkObj [
      ("uuid", Json.str task.uuid),
      ("name", Json.str task.name),
      ("state", Json.str task.state),
      ("progress", Json.str (task.progress ++ "%")),
      ("instance_count", Json.int task.instancecount),
      ("running_instances", Json.int task.running_instance_count),
      ("running_cores", Json.int task.running_core_count),
      ("execution_time", Json.str task.execution_time),
      ("wall_time", Json.str task.wall_time),
      ("creation_date", Json.str task.creation_date),
      ("end_date", Json.str (match task.end_date with
        | some d => d
        | none => "N/A")),
      ("ssh_connections", Json.str "No active SSH forwards")] := by
  have hnil : sshInfoOf task = [] := by
    rcases h with h0 | ⟨st, hst, h1 | ⟨ri, hri, h2 | h3⟩⟩
    · simp [sshInfoOf, h0]
    · simp [sshInfoOf, hst, h1]
    · simp [sshInfoOf, hst, hri, h2]
    · simp only [sshInfoOf, hst, hri, List.flatMap_eq_nil_iff]
      intro inst hinst
      simp [h3 inst hinst]
  simp [get_task_status_json, hnil]

/-- Witness for C10: a task whose `status` attribute is `None`. -/
theorem get_task_status_missing_attrs_safe_witness :
    get_task_status_json sampleTask = Json.mkObj [
      ("uuid", Json.str "task-1"),
      ("name", Json.str "demo"),
      ("state", Json.str "FullyExecuting"),
      ("progress", Json.str "50.0%"),
      ("instance_count", Json.int 2),
      ("running_instances", Json.int 1),
      ("running_cores", Json.int 4),
      ("execution_time", Json.str "0:10:00"),
      ("wall_time", Json.str "0:12:00"),
      ("creation_date", Json.str "2024-01-01 00:00:00"),
      ("end_date", Json.str "N/A"),
      ("ssh_connections", Json.str "No active SSH forwards")] :=
  get_task_status_missing_attrs_safe sampleTask (Or.inl rfl)

/-- Claim C7: with an existing remote file, `download_result` writes the
file's bytes at the local path and returns a confirmation naming the
remote path, the local path and the bucket; with a missing remote file,
the collaborator's error propagates unchanged and no confirmation is
produced (the result is an `error`, not an `ok`). -/
theorem download_result_spec (bucket : Bucket)
    (bucket_name remote_path local_path : String) (fs : LocalFS) :
    (∀ f, bucket.files.find? (fun g => g.key == remote_path) = some f →
      ∃ fs2 msg,
        download_result bucket bucket_name remote_path local_path fs
            = Except.ok (fs2, msg) ∧
          fs2 local_path = some f.content ∧
          (∃ a b, msg = a ++ remote_path ++ b) ∧
          (∃ a b, msg = a ++ local_path ++ b) ∧
          (∃ a b, msg = a ++ bucket_name ++ b)) ∧
    (∀ e, bucket.get_file remote_path local_path fs = Except.error e →
      download_result bucket bucket_name remote_path local_path fs
        = Except.error e) := by
  constructor
  · intro f hf
    refine ⟨fun p => if p = local_path then some f.content else fs p,
      "Downloaded '" ++ remote_path ++ "' from '" ++ bucket_name
        ++ "' to '" ++ local_path ++ "'", ?_, by simp, ?_, ?_, ?_⟩
    · simp only [download_result, Bucket.get_file, hf]
    · exact ⟨"Downloaded '",
        "' from '" ++ bucket_name ++ "' to '" ++ local_path ++ "'",
        by simp [String.append_assoc]⟩
    · exact ⟨"Downloaded '" ++ remote_path ++ "' from '" ++ bucket_name
        ++ "' to '", "'", by simp [String.append_assoc]⟩
    · exact ⟨"Downloaded '" ++ remote_path ++ "' from '",
        "' to '" ++ local_path ++ "'", by simp [String.append_assoc]⟩
  · intro e he
    simp only [download_result, he]

/-- A bucket holding one result file `r.txt`. -/
def demoBucket : Bucket :=
  { uuid := "store", files := [⟨"r.txt", [1, 2, 3]⟩] }

/-- Witness for C7: `demoBucket`, downloaded to a concrete local path,
and a missing remote file whose error surfaces. -/
theorem download_result_spec_witness :
    (∃ fs2 msg,
      download_result demoBucket "store" "r.txt" "/out/r.txt"
          (fun _ => none)
        = Except.ok (fs2, msg) ∧
      fs2 "/out/r.txt" = some [1, 2, 3] ∧
      (∃ a b, msg = a ++ "r.txt" ++ b) ∧
      (∃ a b, msg = a ++ "/out/r.txt" ++ b) ∧
      (∃ a b, msg = a ++ "store" ++ b)) ∧
    download_result demoBucket "store" "missing.txt" "/out/m.txt"
        (fun _ => none)
      = Except.error "File not found in bucket: missing.txt" :=
  ⟨(download_result_spec demoBucket
      "store" "r.txt" "/out/r.txt" (fun _ => none)).1
      ⟨"r.txt", [1, 2, 3]⟩ rfl,
   (download_result_spec demoBucket
      "store" "missing.txt" "/out/m.txt" (fun _ => none)).2
      "File not found in bucket: missing.txt" rfl⟩
